import Mathlib

/-!
Verification of the ThalaNet patient–donor matching core
(`src/backend/src/ml/patientDonorMatching.py`) and the emergency alert
manager (`src/backend/src/services/emergencyNotificationService.py`).

Modelling conventions:
* Python floats are modelled as exact rationals (`ℚ`); Python's
  `round(x, 2)` is modelled as rounding `100*x` to the nearest integer
  (ties differ from Python's bankers rounding only at exact `.005`
  boundaries, which no concrete input below hits).
* A Python dict field read with `d.get(key, default)` becomes an
  `Option` field read with `Option.getD`; a field read with `d[key]`
  (always present in this repository's dataframes) is kept as a plain
  field of the record.
* `geopy.distance.geodesic` is an external library call; every function
  that computes a distance takes the distance function `geo` as an
  explicit parameter (four coordinates in, kilometres out).
* The donor's `last_donation_date` is consumed by the source only through
  `(datetime.now() - pd.to_datetime(d)).days`; we model the field directly
  as that day count (`days_since_last_donation : Option ℤ`, `none` for a
  missing or unparseable date).
-/

namespace ThalaNet

/-- Patient dictionary as consumed by `calculate_matching_score` /
`find_matches`: `blood_type_required` is read directly, `urgency_level`
via `.get(_, 'MEDIUM')`, coordinates via `.get(_, 0)`. -/
structure Patient where
  blood_type_required : String
  urgency_level : Option String
  latitude : Option ℚ
  longitude : Option ℚ
deriving Repr, DecidableEq

/-- Donor row of the donors dataframe.  Fields the source reads with a
bare index (`donor['age']`, …) are plain; fields it reads through `.get`
are `Option`. -/
structure Donor where
  donor_id : String
  name : String
  blood_type : String
  age : Option ℤ
  gender : String
  location : String
  latitude : Option ℚ
  longitude : Option ℚ
  availability_status : String
  health_conditions : Option String
  predicted_availability_score : Option ℚ
  responsiveness_score : Option ℚ
  days_since_last_donation : Option ℤ
  contact_number : Option String
deriving Repr, DecidableEq

/-- `self.blood_compatibility` dict (lines 21–30); `.get(pt, [])` becomes
the final `[]` branch. -/
def blood_compatibility (patient_blood_type : String) : List String :=
  if patient_blood_type = "O-" then ["O-"]
  else if patient_blood_type = "O+" then ["O+", "O-"]
  else if patient_blood_type = "A-" then ["A-", "O-"]
  else if patient_blood_type = "A+" then ["A+", "A-", "O+", "O-"]
  else if patient_blood_type = "B-" then ["B-", "O-"]
  else if patient_blood_type = "B+" then ["B+", "B-", "O+", "O-"]
  else if patient_blood_type = "AB-" then ["AB-", "A-", "B-", "O-"]
  else if patient_blood_type = "AB+" then
    ["AB+", "AB-", "A+", "A-", "B+", "B-", "O+", "O-"]
  else []

/-- `check_blood_compatibility` (lines 84–95): membership of the donor
type in the compatibility list for the patient type. -/
def check_blood_compatibility (patient_blood_type donor_blood_type : String) : Bool :=
  (blood_compatibility patient_blood_type).contains donor_blood_type

/-- `self.urgency_weights` dict with `.get(u, 1.0)` (lines 33–38, 125). -/
def urgency_weight (u : String) : ℚ :=
  if u = "LOW" then 1.0
  else if u = "MEDIUM" then 1.5
  else if u = "HIGH" then 2.0
  else if u = "CRITICAL" then 3.0
  else 1.0

/-- `get_location_proximity` (lines 67–82). -/
def get_location_proximity (distance : ℚ) : String :=
  if distance ≤ 10 then "same_city"
  else if distance ≤ 50 then "nearby_city"
  else "far_city"

/-- `self.distance_weights` dict with `.get(p, 0.5)` (lines 41–45, 130). -/
def distance_weight (p : String) : ℚ :=
  if p = "same_city" then 1.0
  else if p = "nearby_city" then 0.8
  else if p = "far_city" then 0.6
  else 0.5

/-- `self.max_distance` (line 48). -/
def max_distance : ℚ := 100

/-- Availability multiplier `0.5 + 0.5 * availability_score` (line 135). -/
def availability_factor (a : ℚ) : ℚ := 0.5 + 0.5 * a

/-- Health multiplier (lines 138–141): `1.2` iff the `health_conditions`
field equals the string `'None'`, else `0.8` (an absent field also gets
`0.8`, since Python `None != 'None'`). -/
def health_factor (h : Option String) : ℚ :=
  if h = some "None" then 1.2 else 0.8

/-- Responsiveness multiplier `0.8 + 0.4 * responsiveness` (line 145). -/
def responsiveness_factor (r : ℚ) : ℚ := 0.8 + 0.4 * r

/-- Age multiplier (lines 148–152). -/
def age_factor (a : ℤ) : ℚ :=
  if 18 ≤ a ∧ a ≤ 45 then 1.1
  else if 65 < a then 0.9
  else 1

/-- Recency multiplier (lines 154–165): `1.2` when the donor last donated
at least 56 days ago, `0.3` when fewer than 30 days ago, otherwise no
adjustment; a missing/unparseable date (`none`) means no adjustment. -/
def recency_factor (d : Option ℤ) : ℚ :=
  match d with
  | none => 1
  | some days => if 56 ≤ days then 1.2 else if days < 30 then 0.3 else 1

/-- `calculate_matching_score` (lines 97–167).  The source multiplies a
running `score` by each factor in turn and finally returns
`max(0.0, score)`; here the factors are named and multiplied in the same
order. -/
def calculate_matching_score (patient : Patient) (donor : Donor)
    (distance : ℚ) (predicted_availability : ℚ) : ℚ :=
  if check_blood_compatibility patient.blood_type_required donor.blood_type then
    max 0 (100
      * urgency_weight (patient.urgency_level.getD "MEDIUM")
      * distance_weight (get_location_proximity distance)
      * availability_factor (donor.predicted_availability_score.getD predicted_availability)
      * health_factor donor.health_conditions
      * responsiveness_factor (donor.responsiveness_score.getD 0.5)
      * age_factor (donor.age.getD 35)
      * recency_factor donor.days_since_last_donation)
  else 0

/-- Python `round(x, 2)`: round `100 * x` to the nearest integer and
divide back. -/
def round2 (x : ℚ) : ℚ := (round (100 * x) : ℤ) / 100

lemma urgency_weight_pos (u : String) : 0 < urgency_weight u := by
  unfold urgency_weight; split_ifs <;> norm_num

lemma distance_weight_pos (p : String) : 0 < distance_weight p := by
  unfold distance_weight; split_ifs <;> norm_num

lemma availability_factor_pos {a : ℚ} (h : 0 ≤ a) : 0 < availability_factor a := by
  unfold availability_factor; linarith

lemma health_factor_pos (h : Option String) : 0 < health_factor h := by
  unfold health_factor; split_ifs <;> norm_num

lemma responsiveness_factor_pos {r : ℚ} (h : 0 ≤ r) : 0 < responsiveness_factor r := by
  unfold responsiveness_factor; linarith

lemma age_factor_pos (a : ℤ) : 0 < age_factor a := by
  unfold age_factor; split_ifs <;> norm_num

/-- C1: for every patient/donor pair and any distance and availability
inputs, a strictly positive matching score implies blood compatibility,
and every incompatible pair (including a patient blood type absent from
the compatibility table, whose lookup yields the empty list) scores
exactly 0 — the function is total, so no exception can be raised. -/
theorem score_pos_iff_compatible (patient : Patient) (donor : Donor) (distance pa : ℚ) :
    (0 < calculate_matching_score patient donor distance pa →
      check_blood_compatibility patient.blood_type_required donor.blood_type = true) ∧
    (check_blood_compatibility patient.blood_type_required donor.blood_type = false →
      calculate_matching_score patient donor distance pa = 0) := by
  constructor
  · intro h
    by_contra hc
    rw [calculate_matching_score, if_neg hc] at h
    exact lt_irrefl 0 h
  · intro h
    rw [calculate_matching_score, if_neg]
    simp [h]

def patientC1 : Patient := ⟨"X+", some "CRITICAL", some 0, some 0⟩

def donorC1 : Donor :=
  ⟨"D001", "Asha", "O-", some 25, "F", "Pune", some 0, some 0, "Available",
    some "None", some 0.9, some 0.9, some 90, none⟩

theorem score_pos_iff_compatible_witness :
    calculate_matching_score patientC1 donorC1 5 (1/2) = 0 :=
  (score_pos_iff_compatible patientC1 donorC1 5 (1/2)).2 (by decide)

def patientC3 : Patient := ⟨"A+", some "HIGH", some 0, some 0⟩

def donorC3 : Donor :=
  ⟨"D003", "Ravi", "O-", some 30, "M", "Mumbai", some 0, some 0, "Available",
    some "None", some 0.9, some 0.8, some 70, none⟩

lemma score_c3_eval : calculate_matching_score patientC3 donorC3 5 0.9 = 337.0752 := by
  simp [calculate_matching_score, check_blood_compatibility, blood_compatibility,
    urgency_weight, distance_weight, get_location_proximity, availability_factor,
    health_factor, responsiveness_factor, age_factor, recency_factor, patientC3, donorC3]
  norm_num

/-- C3 counterexample: on the claim's own input (A+ patient, O- donor,
5 km, availability 0.9, health "None", responsiveness 0.8, age 30, last
donation 70 days ago, urgency HIGH) the score is 337.0752, which is not
approximately 317.9 — it is more than 19 away. -/
theorem score_c3_not_approx_317_9 :
    calculate_matching_score patientC3 donorC3 5 0.9 = 337.0752 ∧
    ¬(|calculate_matching_score patientC3 donorC3 5 0.9 - 317.9| ≤ 10) := by
  rw [score_c3_eval]
  norm_num [abs_le]

/-- C3 (amended): on the claim's input the score equals the product of the
listed factors, 100 × 2.0 × 1.0 × 0.95 × 1.2 × 1.12 × 1.1 × 1.2 =
337.0752 (the spec's "≈ 317.9" mis-multiplies its own factors), and the
candidate is high-priority eligible: rounded score ≥ 150 and rounded
distance 5 km ≤ 50 km. -/
theorem score_c3_is_337_0752 :
    calculate_matching_score patientC3 donorC3 5 0.9 =
      100 * 2.0 * 1.0 * 0.95 * 1.2 * 1.12 * 1.1 * 1.2 ∧
    150 ≤ round2 (calculate_matching_score patientC3 donorC3 5 0.9) ∧
    round2 (5 : ℚ) ≤ 50 := by
  rw [score_c3_eval]
  refine ⟨by norm_num, ?_, ?_⟩
  · rw [round2, round_eq]
    rw [show (100 : ℚ) * 337.0752 + 1/2 = 33708.02 by norm_num]
    rw [show ⌊(33708.02 : ℚ)⌋ = 33708 by norm_num [Int.floor_eq_iff]]
    norm_num
  · rw [round2, round_eq]
    rw [show (100 : ℚ) * 5 + 1/2 = 500.5 by norm_num]
    rw [show ⌊(500.5 : ℚ)⌋ = 500 by norm_num [Int.floor_eq_iff]]
    norm_num

lemma recency_factor_10 : recency_factor (some 10) = 0.3 := by
  norm_num [recency_factor]

lemma recency_factor_60 : recency_factor (some 60) = 1.2 := by
  norm_num [recency_factor]

/-- C7: two donors identical except for the last donation date — 10 days
ago versus 60 days ago — are scored with factors 0.3 versus 1.2, so for
any compatible patient (and score fields in their documented [0, 1]
ranges) the 10-day donor scores strictly lower. -/
theorem recent_donor_scores_strictly_lower (patient : Patient) (donor : Donor)
    (distance pa : ℚ)
    (hcompat : check_blood_compatibility patient.blood_type_required donor.blood_type = true)
    (hav : 0 ≤ donor.predicted_availability_score.getD pa)
    (hre : 0 ≤ donor.responsiveness_score.getD 0.5) :
    calculate_matching_score patient
        { donor with days_since_last_donation := some 10 } distance pa <
      calculate_matching_score patient
        { donor with days_since_last_donation := some 60 } distance pa := by
  have hbase : 0 < 100 * urgency_weight (patient.urgency_level.getD "MEDIUM")
      * distance_weight (get_location_proximity distance)
      * availability_factor (donor.predicted_availability_score.getD pa)
      * health_factor donor.health_conditions
      * responsiveness_factor (donor.responsiveness_score.getD 0.5)
      * age_factor (donor.age.getD 35) :=
    mul_pos (mul_pos (mul_pos (mul_pos (mul_pos (mul_pos (by norm_num)
      (urgency_weight_pos _)) (distance_weight_pos _)) (availability_factor_pos hav))
      (health_factor_pos _)) (responsiveness_factor_pos hre)) (age_factor_pos _)
  have e10 : calculate_matching_score patient
      { donor with days_since_last_donation := some 10 } distance pa =
      max 0 (100 * urgency_weight (patient.urgency_level.getD "MEDIUM")
        * distance_weight (get_location_proximity distance)
        * availability_factor (donor.predicted_availability_score.getD pa)
        * health_factor donor.health_conditions
        * responsiveness_factor (donor.responsiveness_score.getD 0.5)
        * age_factor (donor.age.getD 35) * 0.3) := by
    rw [calculate_matching_score]
    dsimp only
    rw [if_pos hcompat, recency_factor_10]
  have e60 : calculate_matching_score patient
      { donor with days_since_last_donation := some 60 } distance pa =
      max 0 (100 * urgency_weight (patient.urgency_level.getD "MEDIUM")
        * distance_weight (get_location_proximity distance)
        * availability_factor (donor.predicted_availability_score.getD pa)
        * health_factor donor.health_conditions
        * responsiveness_factor (donor.responsiveness_score.getD 0.5)
        * age_factor (donor.age.getD 35) * 1.2) := by
    rw [calculate_matching_score]
    dsimp only
    rw [if_pos hcompat, recency_factor_60]
  rw [e10, e60, max_eq_right (by nlinarith), max_eq_right (by nlinarith)]
  nlinarith

def patientC7 : Patient := ⟨"B+", some "MEDIUM", some 0, some 0⟩

def donorC7 : Donor :=
  ⟨"D007", "Kiran", "O+", some 40, "M", "Delhi", some 0, some 0, "Available",
    some "None", some 0.7, some 0.6, none, none⟩

theorem recent_donor_scores_strictly_lower_witness :
    calculate_matching_score patientC7
        { donorC7 with days_since_last_donation := some 10 } 12 (1/2) <
      calculate_matching_score patientC7
        { donorC7 with days_since_last_donation := some 60 } 12 (1/2) :=
  recent_donor_scores_strictly_lower patientC7 donorC7 12 (1/2) (by decide)
    (by norm_num [donorC7]) (by norm_num [donorC7])

/-- Match dictionary built by `find_matches` (lines 221–236). -/
structure MatchEntry where
  donor_id : String
  donor_name : String
  blood_type : String
  age : Option ℤ
  gender : String
  location : String
  distance_km : ℚ
  matching_score : ℚ
  predicted_availability : ℚ
  responsiveness_score : ℚ
  last_donation_days_since : Option ℤ
  health_conditions : Option String
  contact_number : Option String
  urgency_level : String
deriving Repr, DecidableEq

/-- Comparator of `matches.sort(key=lambda x: x['matching_score'], reverse=True)`
(line 240): `a` may come before `b` iff `a`'s score is at least `b`'s. -/
def by_score_desc (a b : MatchEntry) : Bool :=
  decide (b.matching_score ≤ a.matching_score)

lemma by_score_desc_trans :
    ∀ a b c, by_score_desc a b = true → by_score_desc b c = true →
      by_score_desc a c = true := by
  intro a b c hab hbc
  simp only [by_score_desc, decide_eq_true_eq] at *
  exact le_trans hbc hab

lemma by_score_desc_total :
    ∀ a b, (by_score_desc a b || by_score_desc b a) = true := by
  intro a b
  simp only [by_score_desc, Bool.or_eq_true, decide_eq_true_eq]
  exact le_total b.matching_score a.matching_score

lemma round2_gt (x : ℚ) : x - 1 / 200 < round2 x := by
  rw [round2, round_eq]
  have h : (100 : ℚ) * x + 1 / 2 - 1 < (⌊(100 : ℚ) * x + 1 / 2⌋ : ℚ) :=
    Int.sub_one_lt_floor _
  rw [lt_div_iff₀ (by norm_num : (0 : ℚ) < 100)]
  linarith

lemma round2_mono {x y : ℚ} (h : x ≤ y) : round2 x ≤ round2 y := by
  have h2 : round ((100 : ℚ) * x) ≤ round ((100 : ℚ) * y) := by
    rw [round_eq, round_eq]
    exact Int.floor_le_floor (by linarith)
  rw [round2, round2]
  gcongr

/-- The match dictionary appended at lines 221–237, as a function of the
donor, patient, raw distance and raw score. -/
def mk_match_entry (patient : Patient) (donor : Donor) (distance score : ℚ) :
    MatchEntry :=
  ⟨donor.donor_id, donor.name, donor.blood_type, donor.age, donor.gender,
    donor.location, round2 distance, round2 score,
    donor.predicted_availability_score.getD 0.5,
    donor.responsiveness_score.getD 0.5, donor.days_since_last_donation,
    donor.health_conditions, donor.contact_number,
    patient.urgency_level.getD "MEDIUM"⟩

/-- The dataframe filter of lines 189–193: available and not disqualified
by a transmissible disease. -/
def eligible_donor (d : Donor) : Bool :=
  d.availability_status == "Available" &&
    !(d.health_conditions == some "HIV/AIDS") &&
    !(d.health_conditions == some "Hepatitis")

/-- Body of the per-donor loop of `find_matches` (lines 199–237): `none`
when the donor is skipped (too far or below `min_score`), otherwise the
match entry. -/
def candidate_entry (geo : ℚ → ℚ → ℚ → ℚ → ℚ) (patient : Patient)
    (min_score : ℚ) (d : Donor) : Option MatchEntry :=
  let distance := geo (patient.latitude.getD 0) (patient.longitude.getD 0)
    (d.latitude.getD 0) (d.longitude.getD 0)
  if max_distance < distance then none
  else
    let score := calculate_matching_score patient d distance
      (d.predicted_availability_score.getD 0.5)
    if min_score ≤ score then some (mk_match_entry patient d distance score)
    else none

/-- The `matches` list as built by the loop, in pool order. -/
def candidate_list (geo : ℚ → ℚ → ℚ → ℚ → ℚ) (patient : Patient)
    (donors : List Donor) (min_score : ℚ) : List MatchEntry :=
  (donors.filter eligible_donor).filterMap (candidate_entry geo patient min_score)

/-- `find_matches` (lines 169–243): build candidates, stable-sort by score
descending (Python's `list.sort` is stable, also with `reverse=True`),
return the first `max_matches`. -/
def find_matches (geo : ℚ → ℚ → ℚ → ℚ → ℚ) (patient : Patient)
    (donors : List Donor) (max_matches : ℕ) (min_score : ℚ) : List MatchEntry :=
  ((candidate_list geo patient donors min_score).mergeSort by_score_desc).take
    max_matches

lemma candidate_entry_inv {geo : ℚ → ℚ → ℚ → ℚ → ℚ} {patient : Patient}
    {min_score : ℚ} {d : Donor} {e : MatchEntry}
    (h : candidate_entry geo patient min_score d = some e) :
    geo (patient.latitude.getD 0) (patient.longitude.getD 0)
        (d.latitude.getD 0) (d.longitude.getD 0) ≤ max_distance ∧
    min_score ≤ calculate_matching_score patient d
      (geo (patient.latitude.getD 0) (patient.longitude.getD 0)
        (d.latitude.getD 0) (d.longitude.getD 0))
      (d.predicted_availability_score.getD 0.5) ∧
    e = mk_match_entry patient d
      (geo (patient.latitude.getD 0) (patient.longitude.getD 0)
        (d.latitude.getD 0) (d.longitude.getD 0))
      (calculate_matching_score patient d
        (geo (patient.latitude.getD 0) (patient.longitude.getD 0)
          (d.latitude.getD 0) (d.longitude.getD 0))
        (d.predicted_availability_score.getD 0.5)) := by
  simp only [candidate_entry] at h
  split_ifs at h with h1 h2
  all_goals first
    | exact Option.noConfusion h
    | exact ⟨le_of_not_lt h1, h2, (Option.some.inj h).symm⟩

/-- Stability of the stable sort, phrased per score value: the entries of
any fixed score appear in the sorted candidate list exactly as — same
elements, same order — they appear in the unsorted candidate list, which
is in pool order. -/
lemma mergeSort_filter_score (cand : List MatchEntry) (s : ℚ) :
    (cand.mergeSort by_score_desc).filter
        (fun m => decide (m.matching_score = s)) =
      cand.filter (fun m => decide (m.matching_score = s)) := by
  have hall : ∀ a ∈ cand.filter (fun m => decide (m.matching_score = s)),
      a.matching_score = s := by
    intro a ha
    have h2 := List.of_mem_filter ha
    simpa using h2
  have hpw : (cand.filter (fun m => decide (m.matching_score = s))).Pairwise
      (fun a b => by_score_desc a b = true) := by
    refine List.pairwise_of_forall_mem_list ?_
    intro a ha b hb
    simp only [by_score_desc, decide_eq_true_eq, hall a ha, hall b hb, le_refl]
  have hst : (cand.filter (fun m => decide (m.matching_score = s))).Sublist
      (cand.mergeSort by_score_desc) :=
    List.sublist_mergeSort by_score_desc_trans by_score_desc_total hpw
      (List.filter_sublist _)
  have hps : ∀ a ∈ cand.filter (fun m => decide (m.matching_score = s)),
      (fun m => decide (m.matching_score = s)) a = true := by
    intro a ha
    simp [hall a ha]
  have hsubf := List.Sublist.filter (fun m => decide (m.matching_score = s)) hst
  rw [List.filter_eq_self.mpr hps] at hsubf
  have hperm := List.Perm.filter (fun m => decide (m.matching_score = s))
    (List.mergeSort_perm cand by_score_desc)
  exact (List.Sublist.eq_of_length hsubf hperm.length_eq.symm).symm

/-- C2 (amended): `find_matches` output is sorted descending by the stored
`matching_score`, has length at most `max_matches`, every entry comes from
an eligible pool donor whose raw score met `min_score` (so the stored
2-decimal-rounded score exceeds `min_score - 1/200`), and equal-score
entries keep the pool order of their donors (stable sort): for every score
value `s`, the returned entries scoring `s` form, in order, an initial
segment of the candidates scoring `s` listed in pool order — this holds
for every `max_matches`, truncated output included, and yields the
pairwise form: output entries with equal scores occur in pool order. -/
theorem find_matches_sorted_bounded_stable (geo : ℚ → ℚ → ℚ → ℚ → ℚ)
    (patient : Patient) (donors : List Donor) (max_matches : ℕ) (min_score : ℚ) :
    List.Sorted (fun a b : MatchEntry => b.matching_score ≤ a.matching_score)
      (find_matches geo patient donors max_matches min_score) ∧
    (find_matches geo patient donors max_matches min_score).length ≤ max_matches ∧
    (∀ m ∈ find_matches geo patient donors max_matches min_score,
      min_score - 1 / 200 < m.matching_score ∧
      ∃ d ∈ donors.filter eligible_donor,
        candidate_entry geo patient min_score d = some m) ∧
    (∀ s : ℚ,
      (find_matches geo patient donors max_matches min_score).filter
          (fun m => decide (m.matching_score = s)) <+:
        (candidate_list geo patient donors min_score).filter
          (fun m => decide (m.matching_score = s))) := by
  refine ⟨?_, ?_, ?_, ?_⟩
  · have hp := List.sorted_mergeSort by_score_desc_trans by_score_desc_total
      (candidate_list geo patient donors min_score)
    have hp2 := List.Pairwise.sublist
      (List.take_sublist max_matches _) hp
    exact hp2.imp (fun hab => by
      simpa [by_score_desc, decide_eq_true_eq] using hab)
  · rw [find_matches, List.length_take]
    exact min_le_left _ _
  · intro m hm
    have hm2 : m ∈ (candidate_list geo patient donors min_score).mergeSort
        by_score_desc := List.mem_of_mem_take hm
    rw [List.mem_mergeSort, candidate_list, List.mem_filterMap] at hm2
    obtain ⟨d, hd, he⟩ := hm2
    refine ⟨?_, d, hd, he⟩
    obtain ⟨-, hscore, hme⟩ := candidate_entry_inv he
    have hr := round2_gt (calculate_matching_score patient d
      (geo (patient.latitude.getD 0) (patient.longitude.getD 0)
        (d.latitude.getD 0) (d.longitude.getD 0))
      (d.predicted_availability_score.getD 0.5))
    have hms : m.matching_score = round2 (calculate_matching_score patient d
        (geo (patient.latitude.getD 0) (patient.longitude.getD 0)
          (d.latitude.getD 0) (d.longitude.getD 0))
        (d.predicted_availability_score.getD 0.5)) := by
      rw [hme]
      rfl
    rw [hms]
    linarith
  · intro s
    have hpre : (find_matches geo patient donors max_matches min_score).filter
        (fun m => decide (m.matching_score = s)) <+:
        ((candidate_list geo patient donors min_score).mergeSort
          by_score_desc).filter (fun m => decide (m.matching_score = s)) :=
      List.IsPrefix.filter _ (List.take_prefix max_matches _)
    rwa [mergeSort_filter_score] at hpre

/-- Distance function that is identically zero, used for concrete runs. -/
def geoZeroC2 : ℚ → ℚ → ℚ → ℚ → ℚ := fun _ _ _ _ => 0

def patientC2w : Patient := ⟨"O-", some "HIGH", some 0, some 0⟩

def donorC2a : Donor :=
  ⟨"DA", "Aman", "O-", some 30, "M", "Nagpur", some 0, some 0, "Available",
    some "None", some 1, some 1, some 60, none⟩

def donorC2b : Donor :=
  ⟨"DB", "Bela", "O-", some 30, "F", "Nagpur", some 0, some 0, "Available",
    some "None", some 1, some 1, some 60, none⟩

def entryC2a : MatchEntry := mk_match_entry patientC2w donorC2a 0 380.16

def entryC2b : MatchEntry := mk_match_entry patientC2w donorC2b 0 380.16

lemma score_c2a : calculate_matching_score patientC2w donorC2a 0
    (donorC2a.predicted_availability_score.getD 0.5) = 380.16 := by
  simp [calculate_matching_score, check_blood_compatibility, blood_compatibility,
    urgency_weight, distance_weight, get_location_proximity, availability_factor,
    health_factor, responsiveness_factor, age_factor, recency_factor,
    patientC2w, donorC2a]
  norm_num

lemma score_c2b : calculate_matching_score patientC2w donorC2b 0
    (donorC2b.predicted_availability_score.getD 0.5) = 380.16 := by
  simp [calculate_matching_score, check_blood_compatibility, blood_compatibility,
    urgency_weight, distance_weight, get_location_proximity, availability_factor,
    health_factor, responsiveness_factor, age_factor, recency_factor,
    patientC2w, donorC2b]
  norm_num

lemma candidate_c2a : candidate_entry geoZeroC2 patientC2w 50 donorC2a
    = some entryC2a := by
  simp only [candidate_entry, geoZeroC2]
  rw [if_neg (show ¬(max_distance < 0) by norm_num [max_distance])]
  rw [score_c2a]
  rw [if_pos (show (50 : ℚ) ≤ 380.16 by norm_num)]
  rfl

lemma candidate_c2b : candidate_entry geoZeroC2 patientC2w 50 donorC2b
    = some entryC2b := by
  simp only [candidate_entry, geoZeroC2]
  rw [if_neg (show ¬(max_distance < 0) by norm_num [max_distance])]
  rw [score_c2b]
  rw [if_pos (show (50 : ℚ) ≤ 380.16 by norm_num)]
  rfl

lemma filter_c2 : [donorC2a, donorC2b].filter eligible_donor
    = [donorC2a, donorC2b] := by
  simp [eligible_donor, donorC2a, donorC2b]

lemma candlist_c2 : candidate_list geoZeroC2 patientC2w [donorC2a, donorC2b] 50
    = [entryC2a, entryC2b] := by
  rw [candidate_list, filter_c2, List.filterMap_cons, candidate_c2a,
    List.filterMap_cons, candidate_c2b]
  rfl

lemma pairwise_c2 : List.Pairwise (fun a b => by_score_desc a b = true)
    [entryC2a, entryC2b] := by
  refine List.pairwise_of_forall_mem_list ?_
  intro a ha b hb
  simp only [List.mem_cons, List.not_mem_nil, or_false] at ha hb
  rcases ha with rfl | rfl <;> rcases hb with rfl | rfl <;>
    exact decide_eq_true (le_of_eq rfl)

lemma find_matches_c2_eval :
    find_matches geoZeroC2 patientC2w [donorC2a, donorC2b] 10 50
      = [entryC2a, entryC2b] := by
  rw [find_matches, candlist_c2, List.mergeSort_of_sorted pairwise_c2]
  rfl

theorem find_matches_sorted_bounded_stable_witness :
    ((50 : ℚ) - 1 / 200 < entryC2a.matching_score ∧
      ∃ d ∈ [donorC2a, donorC2b].filter eligible_donor,
        candidate_entry geoZeroC2 patientC2w 50 d = some entryC2a) ∧
    (find_matches geoZeroC2 patientC2w [donorC2a, donorC2b] 10 50).filter
        (fun m => decide (m.matching_score = round2 380.16)) <+:
      (candidate_list geoZeroC2 patientC2w [donorC2a, donorC2b] 50).filter
        (fun m => decide (m.matching_score = round2 380.16)) :=
  ⟨(find_matches_sorted_bounded_stable geoZeroC2 patientC2w
        [donorC2a, donorC2b] 10 50).2.2.1 entryC2a
      (by rw [find_matches_c2_eval]; exact List.mem_cons_self _ _),
    (find_matches_sorted_bounded_stable geoZeroC2 patientC2w
        [donorC2a, donorC2b] 10 50).2.2.2 (round2 380.16)⟩

def patientC2x : Patient := ⟨"O-", some "LOW", some 0, some 0⟩

def donorC2x : Donor :=
  ⟨"DX", "Xena", "O-", some 50, "F", "Chennai", some 0, some 0, "Available",
    some "None", some (3 / 1000), some 0, none, none⟩

def entryC2x : MatchEntry := mk_match_entry patientC2x donorC2x 0 48.144

lemma score_c2x : calculate_matching_score patientC2x donorC2x 0
    (donorC2x.predicted_availability_score.getD 0.5) = 48.144 := by
  simp [calculate_matching_score, check_blood_compatibility, blood_compatibility,
    urgency_weight, distance_weight, get_location_proximity, availability_factor,
    health_factor, responsiveness_factor, age_factor, recency_factor,
    patientC2x, donorC2x]
  norm_num

lemma candidate_c2x : candidate_entry geoZeroC2 patientC2x 48.144 donorC2x
    = some entryC2x := by
  simp only [candidate_entry, geoZeroC2]
  rw [if_neg (show ¬(max_distance < 0) by norm_num [max_distance])]
  rw [score_c2x]
  rw [if_pos (le_refl (48.144 : ℚ))]
  rfl

lemma candlist_c2x : candidate_list geoZeroC2 patientC2x [donorC2x] 48.144
    = [entryC2x] := by
  rw [candidate_list]
  rw [show [donorC2x].filter eligible_donor = [donorC2x] by
    simp [eligible_donor, donorC2x]]
  rw [List.filterMap_cons, candidate_c2x]
  rfl

lemma round2_48144 : round2 48.144 = 48.14 := by
  rw [round2, round_eq]
  rw [show (100 : ℚ) * 48.144 + 1 / 2 = 4814.9 by norm_num]
  rw [show ⌊(4814.9 : ℚ)⌋ = 4814 by norm_num [Int.floor_eq_iff]]
  norm_num

/-- C2 counterexample: with `min_score = 48.144`, the only returned entry
stores `matching_score = 48.14 < min_score` (the stored score is the raw
score rounded to 2 decimals), refuting "every entry has matching_score at
least min_score" for arbitrary `min_score`. -/
theorem find_matches_entry_below_min_score :
    (find_matches geoZeroC2 patientC2x [donorC2x] 10 48.144).map
      MatchEntry.matching_score = [48.14] ∧
    ¬((48.144 : ℚ) ≤ 48.14) := by
  constructor
  · rw [find_matches, candlist_c2x, List.mergeSort_singleton]
    rw [show List.take 10 [entryC2x] = [entryC2x] from rfl]
    show [entryC2x.matching_score] = [48.14]
    rw [show entryC2x.matching_score = round2 48.144 from rfl, round2_48144]
  · norm_num

/-- Emergency request dictionary as read by `find_emergency_matches`
(lines 259–266). -/
structure MatchRequest where
  blood_type_needed : String
  urgency_level : String
  latitude : Option ℚ
  longitude : Option ℚ
  location : String
deriving Repr, DecidableEq

/-- Patient object built from an emergency request (lines 260–266); the
`location` entry of that dict is display-only and never read by the
scoring path, so `Patient` does not carry it. -/
def patient_of_request (r : MatchRequest) : Patient :=
  ⟨r.blood_type_needed, some r.urgency_level,
    some (r.latitude.getD 0), some (r.longitude.getD 0)⟩

/-- Recommendations dictionary (lines 276–286); its wall-clock `timestamp`
field (`datetime.now().isoformat()`) is not modelled. -/
structure EmergencyRecommendations where
  immediate_contact : List MatchEntry
  high_priority : List MatchEntry
  backup_options : List MatchEntry
  total_matches : ℕ
  blood_type_needed : String
  urgency_level : String
  location : String
deriving Repr, DecidableEq

/-- `find_emergency_matches` (lines 245–288): run `find_matches` with
`min_score = 30`, then carve three filtered-and-truncated views. -/
def find_emergency_matches (geo : ℚ → ℚ → ℚ → ℚ → ℚ) (r : MatchRequest)
    (donors : List Donor) (max_matches : ℕ) : EmergencyRecommendations :=
  let patient := patient_of_request r
  let found := find_matches geo patient donors max_matches 30
  let critical_matches := found.filter
    (fun m => m.urgency_level == "CRITICAL" && decide (m.distance_km ≤ 25))
  let high_priority_matches := found.filter
    (fun m => decide (150 ≤ m.matching_score) && decide (m.distance_km ≤ 50))
  let standard_matches := found.filter
    (fun m => decide (100 ≤ m.matching_score))
  ⟨critical_matches.take 3, high_priority_matches.take 5,
    standard_matches.take 10, found.length,
    r.blood_type_needed, r.urgency_level, r.location⟩

/-- C8: `find_emergency_matches` feeds `find_matches` with `min_score = 30`
and partitions its output into the three non-exclusive views — first 3
CRITICAL matches within 25 km, first 5 matches with score ≥ 150 within
50 km, first 10 matches with score ≥ 100 — and reports the full match
count. -/
theorem find_emergency_matches_partitions (geo : ℚ → ℚ → ℚ → ℚ → ℚ)
    (r : MatchRequest) (donors : List Donor) (max_matches : ℕ) :
    (find_emergency_matches geo r donors max_matches).immediate_contact =
      ((find_matches geo (patient_of_request r) donors max_matches 30).filter
        (fun m => m.urgency_level == "CRITICAL" &&
          decide (m.distance_km ≤ 25))).take 3 ∧
    (find_emergency_matches geo r donors max_matches).high_priority =
      ((find_matches geo (patient_of_request r) donors max_matches 30).filter
        (fun m => decide (150 ≤ m.matching_score) &&
          decide (m.distance_km ≤ 50))).take 5 ∧
    (find_emergency_matches geo r donors max_matches).backup_options =
      ((find_matches geo (patient_of_request r) donors max_matches 30).filter
        (fun m => decide (100 ≤ m.matching_score))).take 10 ∧
    (find_emergency_matches geo r donors max_matches).total_matches =
      (find_matches geo (patient_of_request r) donors max_matches 30).length ∧
    (find_emergency_matches geo r donors max_matches).immediate_contact.length ≤ 3 ∧
    (find_emergency_matches geo r donors max_matches).high_priority.length ≤ 5 ∧
    (find_emergency_matches geo r donors max_matches).backup_options.length ≤ 10 := by
  refine ⟨by rw [find_emergency_matches], by rw [find_emergency_matches],
    by rw [find_emergency_matches], by rw [find_emergency_matches], ?_, ?_, ?_⟩
  · show (List.take 3 _).length ≤ 3
    rw [List.length_take]
    exact min_le_left _ _
  · show (List.take 5 _).length ≤ 5
    rw [List.length_take]
    exact min_le_left _ _
  · show (List.take 10 _).length ≤ 10
    rw [List.length_take]
    exact min_le_left _ _

/-- Service configuration (`_get_default_config`, lines 71–81). -/
structure ServiceConfig where
  check_interval_seconds : ℕ
  max_alerts_per_hour : ℕ
  notification_channels : List String
  max_distance_km : ℚ
  min_matching_score : ℚ
  alert_expiry_hours : ℚ
  batch_notification_size : ℕ
deriving Repr, DecidableEq

/-- The default configuration dict (lines 73–81). -/
def default_config : ServiceConfig :=
  ⟨30, 50, ["email", "sms"], 100, 50, 24, 10⟩

/-- `EmergencyAlert` dataclass (lines 25–42).  `datetime` timestamps are
modelled as rational seconds on a common clock. -/
structure EmergencyAlert where
  alert_id : String
  request_id : String
  blood_type_needed : String
  urgency_level : String
  location : String
  latitude : ℚ
  longitude : ℚ
  units_required : ℤ
  hospital_name : String
  contact_person : String
  contact_number : String
  timestamp : ℚ
  status : String
  matched_donors : Option (List MatchEntry)
  notification_sent : Bool
deriving Repr, DecidableEq

/-- Row of the emergency-requests dataframe as read by
`detect_emergency_requests` (lines 96–127): `request_id`, `timestamp`,
`blood_type_needed` and `location` are indexed directly, the rest via
`.get` with the defaults of lines 112 and 121–126. -/
structure EmergencyRequestRow where
  request_id : String
  timestamp : ℚ
  urgency_level : Option String
  blood_type_needed : String
  location : String
  latitude : Option ℚ
  longitude : Option ℚ
  units_required : Option ℤ
  hospital_name : Option String
  contact_person : Option String
  contact_number : Option String
deriving Repr, DecidableEq

/-- History record appended at lines 388–393. -/
structure AlertHistoryEntry where
  alert_id : String
  timestamp : ℚ
  status : String
  matched_donors_count : ℕ
deriving Repr, DecidableEq

/-- Mutable service state: `self.active_alerts` is a Python dict keyed by
`request_id`, modelled as an insertion-ordered association list (its keys
are unique, which `detect` preserves — see
`detect_at_most_one_alert_per_request`); `self.alert_history` is the
append-only list. -/
structure ServiceState where
  active_alerts : List (String × EmergencyAlert)
  alert_history : List AlertHistoryEntry
deriving Repr, DecidableEq

/-- Python `f"{n:06d}"`. -/
def pad6 (n : ℕ) : String :=
  let s := toString n
  String.mk (List.replicate (6 - s.length) '0') ++ s

/-- The alert constructed at lines 115–128; `active_count` is
`len(self.active_alerts)` at creation time. -/
def new_alert_of_row (active_count : ℕ) (row : EmergencyRequestRow) :
    EmergencyAlert :=
  ⟨"ALERT_" ++ pad6 (active_count + 1), row.request_id, row.blood_type_needed,
    row.urgency_level.getD "MEDIUM", row.location, row.latitude.getD 0,
    row.longitude.getD 0, row.units_required.getD 1,
    row.hospital_name.getD "Unknown", row.contact_person.getD "Unknown",
    row.contact_number.getD "Unknown", row.timestamp, "active", none, false⟩

/-- One iteration of the detection loop (lines 96–133): skip rows already
tracked, rows older than an hour, and rows that are not HIGH/CRITICAL;
otherwise create the alert, register it in the active map and collect it. -/
def detect_step (now : ℚ) (acc : ServiceState × List EmergencyAlert)
    (row : EmergencyRequestRow) : ServiceState × List EmergencyAlert :=
  if acc.1.active_alerts.any (fun p => p.1 == row.request_id) then acc
  else if 3600 < now - row.timestamp then acc
  else if row.urgency_level.getD "MEDIUM" = "HIGH" ∨
      row.urgency_level.getD "MEDIUM" = "CRITICAL" then
    let alert := new_alert_of_row acc.1.active_alerts.length row
    ({ acc.1 with
        active_alerts := acc.1.active_alerts ++ [(row.request_id, alert)] },
      acc.2 ++ [alert])
  else acc

/-- `detect_emergency_requests` (lines 83–135): fold the detection loop
over the dataframe rows, returning the updated state and the list of new
alerts. -/
def detect_emergency_requests (now : ℚ) (rows : List EmergencyRequestRow)
    (s : ServiceState) : ServiceState × List EmergencyAlert :=
  rows.foldl (detect_step now) (s, [])

/-- Keys of `self.notification_channels` (lines 62–67). -/
def notification_channel_keys : List String :=
  ["email", "sms", "whatsapp", "push"]

/-- `send_emergency_notifications` (lines 269–302) together with
`_send_notification_async` (lines 304–310).  `channel_send` models the
awaited per-channel coroutine: `Except.error` is a raised exception, which
`_send_notification_async` catches and logs, so a failing channel never
aborts the others (`asyncio.gather(..., return_exceptions=True)`).  The
result pairs each attempted channel with whether it succeeded; after all
channels finish the alert is marked with `notification_sent = True` and
its `matched_donors` list — its `status` field is not touched. -/
def send_emergency_notifications (cfg : ServiceConfig)
    (channel_send : String → Except Unit Bool) (alert : EmergencyAlert)
    (matched_donors : List MatchEntry) :
    EmergencyAlert × List (String × Bool) :=
  if matched_donors.isEmpty then (alert, [])
  else
    let attempted := cfg.notification_channels.filter
      (fun c => notification_channel_keys.contains c)
    let results := attempted.map (fun c =>
      match channel_send c with
      | Except.ok r => (c, r)
      | Except.error _ => (c, false))
    ({ alert with notification_sent := true, matched_donors := some matched_donors },
      results)

/-- The `except` arm's `alert.status = 'error'` assignment (line 397). -/
def mark_error_status (alert : EmergencyAlert) : EmergencyAlert :=
  { alert with status := "error" }

/-- One iteration of the per-alert loop of `process_emergency_requests`
(lines 376–397).  `matcher` models the fallible
`find_matching_donors_for_alert` call of the `try:` block: `Except.error`
is an exception escaping matching/dispatch, in which case the `except`
arm only sets the alert's status to `'error'` — no history entry is
appended.  On normal completion a history entry with status
`'processed'` is appended, and when donors were matched the dispatched
alert (notification flag and matched list set) replaces the tracked
one. -/
def process_step (cfg : ServiceConfig)
    (matcher : EmergencyAlert → Except Unit (List MatchEntry))
    (channel_send : String → Except Unit Bool)
    (st : ServiceState) (alert : EmergencyAlert) : ServiceState :=
  match matcher alert with
  | Except.ok matched =>
      let alert' := if matched.isEmpty then alert
        else (send_emergency_notifications cfg channel_send alert matched).1
      let entry : AlertHistoryEntry :=
        ⟨alert.alert_id, alert.timestamp, "processed", matched.length⟩
      ⟨st.active_alerts.map
          (fun p => if p.1 == alert.request_id then (p.1, alert') else p),
        st.alert_history ++ [entry]⟩
  | Except.error _ =>
      ⟨st.active_alerts.map
          (fun p => if p.1 == alert.request_id then (p.1, mark_error_status alert)
            else p),
        st.alert_history⟩

/-- `_cleanup_expired_alerts` (lines 402–413): the source collects the
request ids whose age exceeds the TTL and deletes each from the dict;
on a dict (unique keys) this retains exactly the non-expired entries. -/
def cleanup_expired_alerts (now : ℚ) (cfg : ServiceConfig)
    (s : ServiceState) : ServiceState :=
  ⟨s.active_alerts.filter
      (fun p => !(decide (cfg.alert_expiry_hours * 3600 < now - p.2.timestamp))),
    s.alert_history⟩

/-- `process_emergency_requests` (lines 356–400): detect, process each new
alert, then clean up — except that with no new alerts the method returns
early (line 371) without running cleanup. -/
def process_emergency_requests (now : ℚ) (cfg : ServiceConfig)
    (matcher : EmergencyAlert → Except Unit (List MatchEntry))
    (channel_send : String → Except Unit Bool)
    (rows : List EmergencyRequestRow) (s : ServiceState) : ServiceState :=
  let detected := detect_emergency_requests now rows s
  if detected.2.isEmpty then detected.1
  else cleanup_expired_alerts now cfg
    (detected.2.foldl (process_step cfg matcher channel_send) detected.1)

/-- Match dictionary built by `_simple_donor_matching` (lines 193–202). -/
structure SimpleMatch where
  donor_id : String
  donor_name : String
  blood_type : String
  location : String
  distance_km : ℚ
  matching_score : ℚ
  contact_number : String
  responsiveness_score : ℚ
deriving Repr, DecidableEq

/-- Comparator of the sort at line 206 (score descending, stable). -/
def simple_by_score_desc (a b : SimpleMatch) : Bool :=
  decide (b.matching_score ≤ a.matching_score)

/-- The dataframe filter of lines 173–177: exact blood-type equality
(the compatibility matrix is not consulted here), availability and a
clean health record. -/
def simple_compatible (alert : EmergencyAlert) (d : Donor) : Bool :=
  d.blood_type == alert.blood_type_needed &&
    d.availability_status == "Available" &&
    d.health_conditions == some "None"

/-- The match dict of lines 193–202 for one donor at raw distance
`distance`: score `100 - (distance / max_distance_km) * 50`. -/
def simple_match_entry (cfg : ServiceConfig) (d : Donor) (distance : ℚ) :
    SimpleMatch :=
  ⟨d.donor_id, d.name, d.blood_type, d.location, round2 distance,
    round2 (100 - distance / cfg.max_distance_km * 50),
    d.contact_number.getD "Unknown", d.responsiveness_score.getD 0.5⟩

/-- Body of the per-donor loop of `_simple_donor_matching`
(lines 183–203): keep the donor iff within `max_distance_km`. -/
def simple_candidate (geo : ℚ → ℚ → ℚ → ℚ → ℚ) (cfg : ServiceConfig)
    (alert : EmergencyAlert) (d : Donor) : Option SimpleMatch :=
  let distance := geo alert.latitude alert.longitude
    (d.latitude.getD 0) (d.longitude.getD 0)
  if distance ≤ cfg.max_distance_km then
    some (simple_match_entry cfg d distance)
  else none

/-- `_simple_donor_matching` (lines 168–207): filter, score, stable-sort
descending, return the top 10. -/
def simple_donor_matching (geo : ℚ → ℚ → ℚ → ℚ → ℚ) (cfg : ServiceConfig)
    (alert : EmergencyAlert) (donors : List Donor) : List SimpleMatch :=
  (((donors.filter (simple_compatible alert)).filterMap
      (simple_candidate geo cfg alert)).mergeSort simple_by_score_desc).take 10

/-- `find_matching_donors_for_alert` (lines 137–166).  `__init__` leaves
`self.matching_system = None` and nothing in the repository ever assigns
it, so the default-constructed service always takes the `None` branch.
The ML branch (lines 153–162: `find_emergency_matches` followed by
concatenating `immediate_contact` and `high_priority`) is abstracted as
the supplied fallible function, with the `except` arm (lines 164–166)
falling back to the simple matcher. -/
def find_matching_donors_for_alert (geo : ℚ → ℚ → ℚ → ℚ → ℚ)
    (cfg : ServiceConfig)
    (matching_system : Option (EmergencyAlert → List Donor → Except Unit (List SimpleMatch)))
    (alert : EmergencyAlert) (donors : List Donor) : List SimpleMatch :=
  match matching_system with
  | none => simple_donor_matching geo cfg alert donors
  | some f =>
      match f alert donors with
      | Except.ok ms => ms
      | Except.error _ => simple_donor_matching geo cfg alert donors

/-- C9: after cleanup no remaining active alert is older than the TTL —
whatever its status — every non-expired entry survives, and the history
is untouched. -/
theorem cleanup_removes_all_expired (now : ℚ) (cfg : ServiceConfig)
    (s : ServiceState) :
    (∀ p ∈ (cleanup_expired_alerts now cfg s).active_alerts,
      now - p.2.timestamp ≤ cfg.alert_expiry_hours * 3600) ∧
    (∀ p ∈ s.active_alerts,
      now - p.2.timestamp ≤ cfg.alert_expiry_hours * 3600 →
      p ∈ (cleanup_expired_alerts now cfg s).active_alerts) ∧
    (cleanup_expired_alerts now cfg s).alert_history = s.alert_history := by
  refine ⟨?_, ?_, rfl⟩
  · intro p hp
    rw [cleanup_expired_alerts] at hp
    have := List.of_mem_filter hp
    simpa using this
  · intro p hp h
    rw [cleanup_expired_alerts]
    refine List.mem_filter.mpr ⟨hp, ?_⟩
    simpa using h

def alertC9 : EmergencyAlert :=
  ⟨"ALERT_000001", "REQ_9", "A+", "CRITICAL", "Pune", 0, 0, 2, "City Hospital",
    "Dr. Rao", "900", 0, "notified_never", none, false⟩

def alertC9b : EmergencyAlert :=
  ⟨"ALERT_000002", "REQ_10", "B-", "HIGH", "Pune", 0, 0, 1, "City Hospital",
    "Dr. Rao", "901", 90000, "active", none, false⟩

def stateC9 : ServiceState :=
  ⟨[("REQ_9", alertC9), ("REQ_10", alertC9b)], []⟩

theorem cleanup_removes_all_expired_witness :
    ("REQ_10", alertC9b) ∈
      (cleanup_expired_alerts 100000 default_config stateC9).active_alerts ∧
    (cleanup_expired_alerts 100000 default_config stateC9).alert_history =
      stateC9.alert_history :=
  ⟨(cleanup_removes_all_expired 100000 default_config stateC9).2.1
      ("REQ_10", alertC9b) (by simp [stateC9])
      (by norm_num [alertC9b, default_config]),
    (cleanup_removes_all_expired 100000 default_config stateC9).2.2⟩

/-- C5 counterexample: three configured channels with the SMS channel
raising; dispatch completes, but the alert's `status` field still reads
`"active"` — the code sets the separate `notification_sent` flag and
never assigns the status `"notified"` anywhere. -/
theorem send_notifications_status_not_notified :
    ((send_emergency_notifications
        { default_config with
            notification_channels := ["email", "sms", "whatsapp"] }
        (fun c => if c = "sms" then Except.error () else Except.ok true)
        alertC9b [entryC2a]).1.status = "active") ∧
    ¬((send_emergency_notifications
        { default_config with
            notification_channels := ["email", "sms", "whatsapp"] }
        (fun c => if c = "sms" then Except.error () else Except.ok true)
        alertC9b [entryC2a]).1.status = "notified") := by
  constructor
  · rw [send_emergency_notifications]
    rfl
  · rw [send_emergency_notifications]
    intro h
    exact absurd h (by simp [alertC9b])

/-- C5 (amended): for any non-empty matched list, dispatch attempts every
configured known channel irrespective of which channels fail, and
afterwards the alert carries `notification_sent = true` and the matched
list, while its `status` field is left exactly as it was (the code never
writes a `"notified"` status). -/
theorem send_notifications_marks_flag_not_status (cfg : ServiceConfig)
    (channel_send : String → Except Unit Bool) (alert : EmergencyAlert)
    (matched : List MatchEntry) (h : matched ≠ []) :
    (send_emergency_notifications cfg channel_send alert matched).1.notification_sent
        = true ∧
    (send_emergency_notifications cfg channel_send alert matched).1.matched_donors
        = some matched ∧
    (send_emergency_notifications cfg channel_send alert matched).1.status
        = alert.status ∧
    (send_emergency_notifications cfg channel_send alert matched).2.map Prod.fst
        = cfg.notification_channels.filter
            (fun c => notification_channel_keys.contains c) := by
  rw [send_emergency_notifications]
  rw [if_neg (by simpa using h)]
  refine ⟨rfl, rfl, rfl, ?_⟩
  rw [List.map_map]
  conv_rhs => rw [← List.map_id (cfg.notification_channels.filter
    (fun c => notification_channel_keys.contains c))]
  apply List.map_congr_left
  intro c _
  cases hc : channel_send c <;> simp [hc]

theorem send_notifications_marks_flag_not_status_witness :
    (send_emergency_notifications
        { default_config with
            notification_channels := ["email", "sms", "whatsapp"] }
        (fun c => if c = "sms" then Except.error () else Except.ok true)
        alertC9b [entryC2a]).1.notification_sent = true ∧
    (send_emergency_notifications
        { default_config with
            notification_channels := ["email", "sms", "whatsapp"] }
        (fun c => if c = "sms" then Except.error () else Except.ok true)
        alertC9b [entryC2a]).1.matched_donors = some [entryC2a] ∧
    (send_emergency_notifications
        { default_config with
            notification_channels := ["email", "sms", "whatsapp"] }
        (fun c => if c = "sms" then Except.error () else Except.ok true)
        alertC9b [entryC2a]).1.status = alertC9b.status ∧
    (send_emergency_notifications
        { default_config with
            notification_channels := ["email", "sms", "whatsapp"] }
        (fun c => if c = "sms" then Except.error () else Except.ok true)
        alertC9b [entryC2a]).2.map Prod.fst =
      ({ default_config with
          notification_channels := ["email", "sms", "whatsapp"]
        } : ServiceConfig).notification_channels.filter
        (fun c => notification_channel_keys.contains c) :=
  send_notifications_marks_flag_not_status _ _ alertC9b [entryC2a]
    (by simp)

lemma detect_step_cases (now : ℚ) (acc : ServiceState × List EmergencyAlert)
    (row : EmergencyRequestRow) :
    detect_step now acc row = acc ∨
    (acc.1.active_alerts.any (fun p => p.1 == row.request_id) = false ∧
      (detect_step now acc row).1.active_alerts =
        acc.1.active_alerts ++
          [(row.request_id, new_alert_of_row acc.1.active_alerts.length row)]) := by
  rw [detect_step]
  split_ifs with h1 h2 h3
  · exact Or.inl rfl
  · exact Or.inl rfl
  · exact Or.inr ⟨Bool.eq_false_iff.mpr h1, rfl⟩
  · exact Or.inl rfl

lemma detect_step_history (now : ℚ) (acc : ServiceState × List EmergencyAlert)
    (row : EmergencyRequestRow) :
    (detect_step now acc row).1.alert_history = acc.1.alert_history := by
  rw [detect_step]
  split_ifs <;> rfl

lemma detect_foldl_history (now : ℚ) (rows : List EmergencyRequestRow) :
    ∀ acc : ServiceState × List EmergencyAlert,
      (rows.foldl (detect_step now) acc).1.alert_history = acc.1.alert_history := by
  induction rows with
  | nil => intro acc; rfl
  | cons r rs ih =>
    intro acc
    rw [List.foldl_cons, ih, detect_step_history]

lemma detect_foldl_nodup_prefix (now : ℚ) (rows : List EmergencyRequestRow) :
    ∀ acc : ServiceState × List EmergencyAlert,
      (acc.1.active_alerts.map Prod.fst).Nodup →
      ((rows.foldl (detect_step now) acc).1.active_alerts.map Prod.fst).Nodup ∧
      acc.1.active_alerts <+:
        (rows.foldl (detect_step now) acc).1.active_alerts := by
  induction rows with
  | nil => exact fun acc h => ⟨h, List.prefix_rfl⟩
  | cons r rs ih =>
    intro acc h
    rw [List.foldl_cons]
    rcases detect_step_cases now acc r with heq | ⟨hany, heq⟩
    · rw [heq]
      exact ih acc h
    · have hnodup : ((detect_step now acc r).1.active_alerts.map Prod.fst).Nodup := by
        rw [heq, List.map_append]
        refine List.Nodup.append h (by simp) ?_
        intro a ha hb
        simp only [List.map_cons, List.map_nil, List.mem_singleton] at hb
        subst hb
        obtain ⟨p, hp, hpeq⟩ := List.mem_map.mp ha
        have hx : acc.1.active_alerts.any (fun q => q.1 == r.request_id) = true :=
          List.any_eq_true.mpr ⟨p, hp, by rw [hpeq]; exact beq_self_eq_true _⟩
        rw [hany] at hx
        exact Bool.false_ne_true hx
      have hres := ih (detect_step now acc r) hnodup
      refine ⟨hres.1, List.IsPrefix.trans ?_ hres.2⟩
      rw [heq]
      exact List.prefix_append _ _

/-- C6: detection keeps the active map a map — its request-id keys stay
pairwise distinct, so at most one active alert exists per request id; the
previously tracked entries are preserved in place (new alerts are only
appended), and a request id that is already tracked keeps exactly its old
alert, so re-presenting a request id never creates or replaces an
alert. -/
theorem detect_at_most_one_alert_per_request (now : ℚ)
    (rows : List EmergencyRequestRow) (s : ServiceState)
    (h : (s.active_alerts.map Prod.fst).Nodup) :
    ((detect_emergency_requests now rows s).1.active_alerts.map Prod.fst).Nodup ∧
    s.active_alerts <+: (detect_emergency_requests now rows s).1.active_alerts ∧
    ∀ rid, s.active_alerts.any (fun p => p.1 == rid) = true →
      (detect_emergency_requests now rows s).1.active_alerts.find?
          (fun p => p.1 == rid) =
        s.active_alerts.find? (fun p => p.1 == rid) := by
  have base := detect_foldl_nodup_prefix now rows (s, []) h
  refine ⟨base.1, base.2, ?_⟩
  intro rid hany
  obtain ⟨t, ht⟩ := base.2
  show (rows.foldl (detect_step now) (s, [])).1.active_alerts.find?
      (fun p => p.1 == rid) = _
  rw [← ht, List.find?_append]
  have hsome : (s.active_alerts.find? (fun p => p.1 == rid)).isSome = true := by
    rw [List.find?_isSome]
    exact List.any_eq_true.mp hany
  obtain ⟨x, hx⟩ := Option.isSome_iff_exists.mp hsome
  rw [hx]
  rfl

def alertC6 : EmergencyAlert :=
  ⟨"ALERT_000001", "REQ_1", "O-", "HIGH", "Pune", 0, 0, 1, "H1", "P1", "91",
    0, "active", none, false⟩

def rowC6 : EmergencyRequestRow :=
  ⟨"REQ_1", 0, some "CRITICAL", "A+", "Pune", some 0, some 0, some 2,
    some "H1", some "P1", some "91"⟩

def stateC6 : ServiceState := ⟨[("REQ_1", alertC6)], []⟩

theorem detect_at_most_one_alert_per_request_witness :
    (((detect_emergency_requests 0 [rowC6] stateC6).1.active_alerts.map
        Prod.fst).Nodup) ∧
    (detect_emergency_requests 0 [rowC6] stateC6).1.active_alerts.find?
        (fun p => p.1 == "REQ_1") =
      stateC6.active_alerts.find? (fun p => p.1 == "REQ_1") :=
  ⟨(detect_at_most_one_alert_per_request 0 [rowC6] stateC6 (by simp [stateC6])).1,
    (detect_at_most_one_alert_per_request 0 [rowC6] stateC6
        (by simp [stateC6])).2.2 "REQ_1" (by simp [stateC6])⟩

/-- Per-alert history contribution: a `'processed'` entry when matching
and dispatch return normally, nothing when they raise. -/
def history_entry_of (matcher : EmergencyAlert → Except Unit (List MatchEntry))
    (a : EmergencyAlert) : Option AlertHistoryEntry :=
  match matcher a with
  | Except.ok matched => some ⟨a.alert_id, a.timestamp, "processed", matched.length⟩
  | Except.error _ => none

lemma process_foldl_history (cfg : ServiceConfig)
    (matcher : EmergencyAlert → Except Unit (List MatchEntry))
    (channel_send : String → Except Unit Bool) :
    ∀ (alerts : List EmergencyAlert) (st : ServiceState),
      (alerts.foldl (process_step cfg matcher channel_send) st).alert_history =
        st.alert_history ++ alerts.filterMap (history_entry_of matcher) := by
  intro alerts
  induction alerts with
  | nil => intro st; simp
  | cons a as ih =>
    intro st
    rw [List.foldl_cons, ih, List.filterMap_cons]
    cases hm : matcher a with
    | ok matched =>
      simp [process_step, hm, history_entry_of, List.append_assoc]
    | error e =>
      simp [process_step, hm, history_entry_of]

/-- C4 (amended): over one processing pass, the alert history grows by
exactly one `'processed'` entry per newly detected alert whose matching
and dispatch complete normally; an alert whose processing raises
contributes no history entry — its handling is confined to setting the
tracked alert's `status` field to `'error'`. -/
theorem process_history_one_entry_per_ok_alert (now : ℚ) (cfg : ServiceConfig)
    (matcher : EmergencyAlert → Except Unit (List MatchEntry))
    (channel_send : String → Except Unit Bool)
    (rows : List EmergencyRequestRow) (s : ServiceState) :
    (process_emergency_requests now cfg matcher channel_send rows s).alert_history =
      s.alert_history ++
        (detect_emergency_requests now rows s).2.filterMap
          (history_entry_of matcher) ∧
    (∀ st alert, matcher alert = Except.error () →
      (process_step cfg matcher channel_send st alert).alert_history =
        st.alert_history ∧
      ∀ p ∈ (process_step cfg matcher channel_send st alert).active_alerts,
        p.1 = alert.request_id → p.2.status = "error") := by
  constructor
  · rw [process_emergency_requests]
    by_cases hempty : (detect_emergency_requests now rows s).2.isEmpty
    · rw [if_pos hempty]
      have h2 : (detect_emergency_requests now rows s).2 = [] :=
        List.isEmpty_iff.mp hempty
      rw [h2, List.filterMap_nil, List.append_nil]
      exact detect_foldl_history now rows (s, [])
    · rw [if_neg hempty]
      show ((detect_emergency_requests now rows s).2.foldl
          (process_step cfg matcher channel_send)
          (detect_emergency_requests now rows s).1).alert_history = _
      rw [process_foldl_history]
      rw [show (detect_emergency_requests now rows s).1.alert_history =
        s.alert_history from detect_foldl_history now rows (s, [])]
  · intro st alert hm
    constructor
    · simp [process_step, hm]
    · intro p hp hpid
      simp only [process_step, hm] at hp
      obtain ⟨q, hq, hqe⟩ := List.mem_map.mp hp
      by_cases hid : q.1 == alert.request_id
      · rw [if_pos hid] at hqe
        rw [← hqe]
        rfl
      · rw [if_neg hid] at hqe
        subst hqe
        exact absurd (by rw [hpid]; exact beq_self_eq_true _) hid

def rowC4 : EmergencyRequestRow :=
  ⟨"REQ_4", 0, some "HIGH", "O-", "Pune", some 0, some 0, some 1, some "H4",
    some "P4", some "94"⟩

def alertC4 : EmergencyAlert := new_alert_of_row 0 rowC4

/-- Matching oracle that always raises. -/
def matcherErr : EmergencyAlert → Except Unit (List MatchEntry) :=
  fun _ => Except.error ()

/-- Channel sink that always succeeds. -/
def sendOk : String → Except Unit Bool := fun _ => Except.ok true

lemma detect_c4 : detect_emergency_requests 0 [rowC4] ⟨[], []⟩ =
    (⟨[("REQ_4", alertC4)], []⟩, [alertC4]) := by
  rw [detect_emergency_requests, List.foldl_cons, detect_step]
  rw [if_neg (by simp)]
  rw [if_neg (by norm_num [rowC4])]
  rw [if_pos (by simp [rowC4])]
  rfl

/-- C4 counterexample: one HIGH request is detected (one new alert), its
processing raises, and the pass leaves the alert history empty — no
`AlertHistoryEntry` at all is appended for the failed alert, contrary to
the claimed exactly-one `'error'` entry. -/
theorem process_exception_appends_no_history :
    (detect_emergency_requests 0 [rowC4] ⟨[], []⟩).2 = [alertC4] ∧
    (process_emergency_requests 0 default_config matcherErr sendOk
        [rowC4] ⟨[], []⟩).alert_history = [] := by
  refine ⟨by rw [detect_c4], ?_⟩
  rw [process_emergency_requests]
  simp only [detect_c4]
  rw [if_neg (by simp)]
  simp [cleanup_expired_alerts, process_step, matcherErr]

theorem process_history_one_entry_per_ok_alert_witness :
    (process_step default_config matcherErr sendOk stateC6 alertC4).alert_history
        = stateC6.alert_history ∧
    ∀ p ∈ (process_step default_config matcherErr sendOk stateC6
        alertC4).active_alerts,
      p.1 = alertC4.request_id → p.2.status = "error" :=
  (process_history_one_entry_per_ok_alert 0 default_config matcherErr sendOk
      [] stateC6).2 stateC6 alertC4 rfl

lemma simple_by_score_desc_trans :
    ∀ a b c, simple_by_score_desc a b = true → simple_by_score_desc b c = true →
      simple_by_score_desc a c = true := by
  intro a b c hab hbc
  simp only [simple_by_score_desc, decide_eq_true_eq] at *
  exact le_trans hbc hab

lemma simple_by_score_desc_total :
    ∀ a b, (simple_by_score_desc a b || simple_by_score_desc b a) = true := by
  intro a b
  simp only [simple_by_score_desc, Bool.or_eq_true, decide_eq_true_eq]
  exact le_total b.matching_score a.matching_score

lemma simple_candidate_inv {geo : ℚ → ℚ → ℚ → ℚ → ℚ} {cfg : ServiceConfig}
    {alert : EmergencyAlert} {d : Donor} {m : SimpleMatch}
    (h : simple_candidate geo cfg alert d = some m) :
    geo alert.latitude alert.longitude (d.latitude.getD 0) (d.longitude.getD 0)
        ≤ cfg.max_distance_km ∧
    m = simple_match_entry cfg d
      (geo alert.latitude alert.longitude (d.latitude.getD 0)
        (d.longitude.getD 0)) := by
  simp only [simple_candidate] at h
  split_ifs at h with h1
  exact ⟨h1, (Option.some.inj h).symm⟩

lemma round2_fifty : round2 50 = 50 := by
  rw [round2, round_eq]
  rw [show (100 : ℚ) * 50 + 1 / 2 = 5000.5 by norm_num]
  rw [show ⌊(5000.5 : ℚ)⌋ = 5000 by norm_num [Int.floor_eq_iff]]
  norm_num

lemma round2_hundred : round2 100 = 100 := by
  rw [round2, round_eq]
  rw [show (100 : ℚ) * 100 + 1 / 2 = 10000.5 by norm_num]
  rw [show ⌊(10000.5 : ℚ)⌋ = 10000 by norm_num [Int.floor_eq_iff]]
  norm_num

/-- C10: with the default construction (`matching_system = None`) donor
lookup is exactly the built-in simple matcher, and every entry it returns
comes from a pool donor with the identical blood type (no compatibility
matrix), status `Available` and health `'None'`, lies within 100 km, and
is scored `round2 (100 - distance/100 * 50) ∈ [50, 100]`; at most 10
entries are returned, sorted by score descending. -/
theorem default_service_uses_simple_matcher (geo : ℚ → ℚ → ℚ → ℚ → ℚ)
    (alert : EmergencyAlert) (donors : List Donor)
    (hgeo : ∀ a b c d, 0 ≤ geo a b c d) :
    find_matching_donors_for_alert geo default_config none alert donors =
      simple_donor_matching geo default_config alert donors ∧
    (simple_donor_matching geo default_config alert donors).length ≤ 10 ∧
    List.Sorted (fun a b : SimpleMatch => b.matching_score ≤ a.matching_score)
      (simple_donor_matching geo default_config alert donors) ∧
    ∀ m ∈ simple_donor_matching geo default_config alert donors,
      m.blood_type = alert.blood_type_needed ∧
      m.distance_km ≤ 100 ∧ 50 ≤ m.matching_score ∧ m.matching_score ≤ 100 ∧
      ∃ d ∈ donors,
        d.blood_type = alert.blood_type_needed ∧
        d.availability_status = "Available" ∧
        d.health_conditions = some "None" ∧
        m = simple_match_entry default_config d
          (geo alert.latitude alert.longitude (d.latitude.getD 0)
            (d.longitude.getD 0)) := by
  refine ⟨rfl, ?_, ?_, ?_⟩
  · rw [simple_donor_matching, List.length_take]
    exact min_le_left _ _
  · have hp := List.sorted_mergeSort simple_by_score_desc_trans
      simple_by_score_desc_total
      ((donors.filter (simple_compatible alert)).filterMap
        (simple_candidate geo default_config alert))
    have hp2 := List.Pairwise.sublist (List.take_sublist 10 _) hp
    exact hp2.imp (fun hab => by
      simpa [simple_by_score_desc, decide_eq_true_eq] using hab)
  · intro m hm
    have hm2 : m ∈ ((donors.filter (simple_compatible alert)).filterMap
        (simple_candidate geo default_config alert)).mergeSort
        simple_by_score_desc := List.mem_of_mem_take hm
    rw [List.mem_mergeSort, List.mem_filterMap] at hm2
    obtain ⟨d, hd, he⟩ := hm2
    obtain ⟨hdmem, hdcomp⟩ := List.mem_filter.mp hd
    simp only [simple_compatible, Bool.and_eq_true, beq_iff_eq] at hdcomp
    obtain ⟨⟨hbt, hav⟩, hhc⟩ := hdcomp
    obtain ⟨hdist, hme⟩ := simple_candidate_inv he
    have hmax : default_config.max_distance_km = 100 := rfl
    rw [hmax] at hdist
    have h0 : 0 ≤ geo alert.latitude alert.longitude (d.latitude.getD 0)
        (d.longitude.getD 0) := hgeo _ _ _ _
    set dist := geo alert.latitude alert.longitude (d.latitude.getD 0)
      (d.longitude.getD 0) with hdistdef
    have hscore_lo : (50 : ℚ) ≤ 100 - dist / default_config.max_distance_km * 50 := by
      rw [hmax]
      have : dist / 100 * 50 = dist / 2 := by ring
      rw [this]
      linarith
    have hscore_hi : 100 - dist / default_config.max_distance_km * 50 ≤ (100 : ℚ) := by
      rw [hmax]
      have : dist / 100 * 50 = dist / 2 := by ring
      rw [this]
      linarith
    have hms : m.matching_score =
        round2 (100 - dist / default_config.max_distance_km * 50) := by
      rw [hme]
      rfl
    have hdk : m.distance_km = round2 dist := by
      rw [hme]
      rfl
    refine ⟨by rw [hme]; exact hbt, ?_, ?_, ?_, d, hdmem, hbt, hav, hhc, hme⟩
    · rw [hdk]
      calc round2 dist ≤ round2 100 := round2_mono hdist
        _ = 100 := round2_hundred
    · rw [hms]
      calc (50 : ℚ) = round2 50 := round2_fifty.symm
        _ ≤ _ := round2_mono hscore_lo
    · rw [hms]
      calc round2 (100 - dist / default_config.max_distance_km * 50)
          ≤ round2 100 := round2_mono hscore_hi
        _ = 100 := round2_hundred

def geoC10 : ℚ → ℚ → ℚ → ℚ → ℚ := fun _ _ _ _ => 20

def alertC10 : EmergencyAlert :=
  ⟨"ALERT_000001", "REQ_10", "B+", "CRITICAL", "Pune", 0, 0, 1, "H10", "P10",
    "910", 0, "active", none, false⟩

def donorC10 : Donor :=
  ⟨"D010", "Gita", "B+", some 28, "F", "Pune", some 0, some 0, "Available",
    some "None", some 0.8, some 0.7, some 100, some "77"⟩

theorem default_service_uses_simple_matcher_witness :
    find_matching_donors_for_alert geoC10 default_config none alertC10
        [donorC10] =
      simple_donor_matching geoC10 default_config alertC10 [donorC10] ∧
    (simple_donor_matching geoC10 default_config alertC10 [donorC10]).length
        ≤ 10 ∧
    List.Sorted (fun a b : SimpleMatch => b.matching_score ≤ a.matching_score)
      (simple_donor_matching geoC10 default_config alertC10 [donorC10]) ∧
    ∀ m ∈ simple_donor_matching geoC10 default_config alertC10 [donorC10],
      m.blood_type = alertC10.blood_type_needed ∧
      m.distance_km ≤ 100 ∧ 50 ≤ m.matching_score ∧ m.matching_score ≤ 100 ∧
      ∃ d ∈ [donorC10],
        d.blood_type = alertC10.blood_type_needed ∧
        d.availability_status = "Available" ∧
        d.health_conditions = some "None" ∧
        m = simple_match_entry default_config d
          (geoC10 alertC10.latitude alertC10.longitude (d.latitude.getD 0)
            (d.longitude.getD 0)) :=
  default_service_uses_simple_matcher geoC10 alertC10 [donorC10]
    (fun a b c d => by norm_num [geoC10])

end ThalaNet
